import Mathlib

/-!
Verification of the Agora portal safety and consent code
(denomination-comparisons.github.io): the crisis keyword classifier and
AgeGate component from core/common.js, the mock consent server
(server.js), the consent grant/revoke and crisis-log Express routes, and
the age/tier logic of the gemini-ux-prototype. Every definition below is
a direct shallow embedding of the corresponding JavaScript; times are
modelled as milliseconds (Nat), JavaScript strings as String or
List Char, and absent/undefined values as Option.
-/

namespace Agora

/-! ### Crisis classifier: detectCrisis from core/common.js -/

/-- Severity level of a classification, the `level` field of the object
returned by detectCrisis. -/
inductive Severity
  | critical
  | sensitive
deriving DecidableEq

/-- Result object of detectCrisis: `{ level, type }`. -/
structure Classification where
  level : Severity
  type : String
deriving DecidableEq

/-- Keyword match at the head of a character list: does `k` occur as the
leading characters of `t`? -/
def matchesAt : List Char → List Char → Bool
  | [], _ => true
  | _ :: _, [] => false
  | a :: k, b :: t => a == b && matchesAt k t

/-- JavaScript `t.includes(k)` on character lists: `k` occurs contiguously
somewhere in `t`. -/
def containsKw (t k : List Char) : Bool :=
  t.tails.any (matchesAt k)

/-- Lowercasing as applied by `text.toLowerCase()` (per character). -/
def lowerOf (t : List Char) : List Char := t.map Char.toLower

/-- The selfHarm keyword list of detectCrisis. -/
def selfHarmKws : List (List Char) :=
  ["suicide".data, "kill myself".data, "end my life".data,
   "i will die".data, "hurt myself".data]

/-- The abuse keyword list of detectCrisis. -/
def abuseKws : List (List Char) :=
  ["rape".data, "raped".data, "molest".data, "molested".data,
   "abuse".data, "assault".data]

/-- The identity keyword list of detectCrisis. -/
def identityKws : List (List Char) :=
  ["gay".data, "lesbian".data, "trans".data, "same-sex".data,
   "sexual orientation".data, "queer".data]

/-- detectCrisis from core/common.js. The input is `none` for a null,
undefined or non-string argument and `some t` for the string with
characters `t`; `if (!text ...)` also rejects the empty string. -/
def detectCrisis : Option (List Char) → Option Classification
  | none => none
  | some t =>
    if t = [] then none
    else
      let lower := lowerOf t
      if selfHarmKws.any (containsKw lower) then
        some ⟨Severity.critical, "self-harm"⟩
      else if abuseKws.any (containsKw lower) then
        some ⟨Severity.critical, "abuse"⟩
      else if identityKws.any (containsKw lower) then
        some ⟨Severity.sensitive, "identity"⟩
      else none

/-! ### Age and tier logic from gemini-ux-prototype/app.js -/

/-- Calendar date as year, month, day (the month/day encoding offset of
JavaScript Date does not affect the comparisons below). -/
structure SDate where
  y : Int
  m : Int
  d : Int
deriving DecidableEq

/-- calculateAge from app.js: whole years between birthDate and today,
decremented when the birthday has not yet occurred this calendar year. -/
def calculateAge (today birth : SDate) : Int :=
  let base := today.y - birth.y
  let m := today.m - birth.m
  if m < 0 ∨ (m = 0 ∧ today.d < birth.d) then base - 1 else base

/-- Access tiers of getTier: ineligible, disciple (13-15),
scribe (16-17), elder (18+). -/
inductive Tier
  | ineligible
  | disciple
  | scribe
  | elder
deriving DecidableEq

/-- getTier from app.js restricted to the age path (tierName null). -/
def getTier (age : Int) : Tier :=
  if age < 13 then Tier.ineligible
  else if 13 ≤ age ∧ age ≤ 15 then Tier.disciple
  else if 16 ≤ age ∧ age ≤ 17 then Tier.scribe
  else Tier.elder

/-- Calendar order on dates: `a` is on or before `b`. Used to state the
whole-years characterisation of calculateAge. -/
def dateLE (a b : SDate) : Prop :=
  a.y < b.y ∨ (a.y = b.y ∧ (a.m < b.m ∨ (a.m = b.m ∧ a.d ≤ b.d)))

instance (a b : SDate) : Decidable (dateLE a b) := by
  unfold dateLE; infer_instance

/-- Outcome of the check-age-btn click handler on index.html. -/
inductive AgeCheckOutcome
  | invalidDate
  | tooYoung
  | showConsent (t : Tier)
  | showAdult
deriving DecidableEq

/-- String stored in localStorage for a tier (the `tier` field of the
getTier result). -/
def tierKey : Tier → String
  | Tier.ineligible => "ineligible"
  | Tier.disciple => "disciple"
  | Tier.scribe => "scribe"
  | Tier.elder => "elder"

/-- The check-age-btn click handler of app.js. `store` is the
localStorage slot tempTier; `dob` is `none` when `new Date(input)` is
invalid (`isNaN(dob.getTime())`), in which case the handler shows an
error message and returns before computing any age or tier and before
any localStorage write. -/
def checkAgeClick (store : Option String) (dob : Option SDate)
    (today : SDate) : Option String × AgeCheckOutcome :=
  match dob with
  | none => (store, AgeCheckOutcome.invalidDate)
  | some b =>
    let t := getTier (calculateAge today b)
    let store2 := some (tierKey t)
    match t with
    | Tier.ineligible => (store2, AgeCheckOutcome.tooYoung)
    | Tier.disciple => (store2, AgeCheckOutcome.showConsent Tier.disciple)
    | Tier.scribe => (store2, AgeCheckOutcome.showConsent Tier.scribe)
    | Tier.elder => (store2, AgeCheckOutcome.showAdult)

/-! ### AgeGate and user records from core/common.js -/

/-- The consentStatus object on a user record. -/
structure ConsentStatus where
  parentalConsent : Bool
  consentDate : Option Nat
  renewalDue : Option Nat
  guardianEmail : Option String
deriving DecidableEq

/-- User record as read by AgeGate and stored by the servers: identity,
ageCategory string, consentStatus. -/
structure GateUser where
  userId : String
  ageCategory : Option String
  consentStatus : ConsentStatus
deriving DecidableEq

/-- The ageMap lookup with JavaScript `|| 0` default:
`{ "13-15": 13, "16-17": 16, "18+": 18 }`, any other or missing
category maps to 0. -/
def ageMapVal : Option String → Nat
  | some "13-15" => 13
  | some "16-17" => 16
  | some "18+" => 18
  | _ => 0

/-- The `allowed` test of the AgeGate component:
`user && userAge >= minimumAge && hasConsent`, where hasConsent is
`consentStatus.parentalConsent === true`. -/
def ageGateAllowed (minimumAge : Nat) (user : Option GateUser) : Bool :=
  match user with
  | none => false
  | some u =>
    decide (minimumAge ≤ ageMapVal u.ageCategory)
      && u.consentStatus.parentalConsent

/-- AgeGate renders its restricted-access fallback exactly when allowed
is false: the user is gated. -/
def ageGateGated (minimumAge : Nat) (user : Option GateUser) : Bool :=
  !(ageGateAllowed minimumAge user)

/-! ### Mock consent server from server.js (consents.json, users.json) -/

/-- Milliseconds in a day (`24 * 60 * 60 * 1000`). -/
def dayMs : Nat := 24 * 60 * 60 * 1000

/-- The 7-day guardian response window used by /api/consent/request. -/
def sevenDaysMs : Nat := 7 * dayMs

/-- The 365-day renewal period set on approval. -/
def yearMs : Nat := 365 * dayMs

/-- Consent record as stored in consents.json: id, user, guardian
contact, method, status string (pending / approved / denied), creation
and expiry times, and the verification time set by /api/consent/verify. -/
structure ConsentRecord where
  id : String
  userId : String
  guardianEmail : String
  method : String
  status : String
  createdAt : Nat
  expiresAt : Nat
  verifiedAt : Option Nat
deriving DecidableEq

/-- Modelled from the spec: an AuditEntry (entity type and id,
from-state, to-state, actor, timestamp, reason code). The JavaScript
servers have no audit store at all; the field `audit` below is a ghost
observer of any audit writes, which the embedded handlers never
perform because the source code performs none. -/
structure AuditEntry where
  entityType : String
  entityId : String
  fromState : String
  toState : String
  actor : String
  timestamp : Nat
  reasonCode : String
deriving DecidableEq

/-- JavaScript object assignment `obj[k] = v` on a keyed store:
overwrite the entry in place when the key exists (keys are unique in a
JavaScript object), append at the end otherwise. -/
def setKey {β : Type} (k : String) (v : β) :
    List (String × β) → List (String × β)
  | [] => [(k, v)]
  | p :: tl => if p.1 = k then (k, v) :: tl else p :: setKey k v tl

/-- State of the server.js stub: the users.json and consents.json files,
plus the ghost audit observer (see AuditEntry). -/
structure ServerState where
  users : List (String × GateUser)
  consents : List (String × ConsentRecord)
  audit : List AuditEntry
deriving DecidableEq

/-- Response of POST /api/consent/request. -/
structure ReqResp where
  status : Nat
  ok : Bool
  consentRequestId : Option String
deriving DecidableEq

/-- Response of POST /api/consent/verify. -/
structure VerResp where
  status : Nat
  ok : Bool
  consent : Option ConsentRecord
deriving DecidableEq

/-- POST /api/consent/request from server.js. `freshId` is the uuidv4
value; a falsy (empty) userId or guardianEmail is rejected with 400;
otherwise a pending record with a 7-day expiresAt is stored
unconditionally — the handler never inspects existing records. -/
def consentRequest (s : ServerState) (freshId userId guardianEmail
    method : String) (now : Nat) : ServerState × ReqResp :=
  if userId = "" ∨ guardianEmail = "" then
    (s, ⟨400, false, none⟩)
  else
    let rec0 : ConsentRecord :=
      ⟨freshId, userId, guardianEmail, method, "pending",
       now, now + sevenDaysMs, none⟩
    ({ s with consents := setKey freshId rec0 s.consents },
     ⟨200, true, some freshId⟩)

/-- POST /api/consent/verify from server.js. `approve` is `none` when
the body field is undefined. An unknown id gives 404 with no write.
Otherwise the status is overwritten (no pending check, no expiry
check) and, on approval, the referenced user record — when present —
gets parentalConsent true, consentDate now and
renewalDue now + 365 days. The consent record own expiresAt is left
unchanged. -/
def consentVerify (s : ServerState) (consentRequestId : String)
    (approve : Option Bool) (now : Nat) : ServerState × VerResp :=
  if consentRequestId = "" ∨ approve = none then
    (s, ⟨400, false, none⟩)
  else
    match s.consents.lookup consentRequestId with
    | none => (s, ⟨404, false, none⟩)
    | some rec0 =>
      let ap := approve.getD false
      let rec1 := { rec0 with
        status := if ap then "approved" else "denied",
        verifiedAt := some now }
      let s1 := { s with consents := setKey consentRequestId rec1 s.consents }
      let s2 :=
        if ap then
          match s1.users.lookup rec0.userId with
          | none => s1
          | some u =>
            let u2 := { u with consentStatus :=
              { u.consentStatus with
                parentalConsent := true,
                consentDate := some now,
                renewalDue := some (now + yearMs) } }
            { s1 with users := setKey rec0.userId u2 s1.users }
        else s1
      (s2, ⟨200, true, some rec1⟩)

/-! ### Agora server routes: consent grant/revoke, progress, crisis log -/

/-- A journal entry pushed by the progress route. -/
structure JEntry where
  text : String
  time : Nat
deriving DecidableEq

/-- Per-user progress record in progress.json. -/
structure ProgressRec where
  pathId : Option String
  completedStations : Option (List String)
  journal : List JEntry
deriving DecidableEq

/-- One entry of crisis-log.json, appended by POST /api/crisis/log. -/
structure CrisisEntry where
  userId : String
  text : List Char
  detectedType : String
  severity : String
  time : Nat
deriving DecidableEq

/-- State of the agora-portal server: users.json (consent routes),
progress.json, crisis-log.json, plus the ghost audit observer. -/
structure AgoraState where
  users : List (String × GateUser)
  progress : List (String × ProgressRec)
  crisisLog : List CrisisEntry
  audit : List AuditEntry
deriving DecidableEq

/-- Generic success/error response of the agora routes. -/
structure RouteResp where
  status : Nat
  success : Bool
deriving DecidableEq

/-- POST /api/consent/revoke from routes/consent.js: 400 on missing
userId, 404 on unknown user, otherwise the consentStatus is replaced
by `{ parentalConsent: false }`. -/
def consentRevoke (s : AgoraState) (userId : String) :
    AgoraState × RouteResp :=
  if userId = "" then (s, ⟨400, false⟩)
  else
    match s.users.lookup userId with
    | none => (s, ⟨404, false⟩)
    | some u =>
      let u2 := { u with consentStatus := ⟨false, none, none, none⟩ }
      ({ s with users := setKey userId u2 s.users }, ⟨200, true⟩)

/-- Truthiness of an optional string body field (undefined and the
empty string are falsy). -/
def truthyS : Option String → Bool
  | none => false
  | some s => s ≠ ""

/-- POST /api/progress/update from routes/progress.js: 400 on missing
userId, otherwise each truthy body field updates the per-user record
and a truthy journalEntry is pushed with the current time. -/
def progressUpdate (s : AgoraState) (userId : String)
    (pathId : Option String) (completedStations : Option (List String))
    (journalEntry : Option String) (now : Nat) :
    AgoraState × RouteResp :=
  if userId = "" then (s, ⟨400, false⟩)
  else
    let pr0 := (s.progress.lookup userId).getD ⟨none, none, []⟩
    let pr1 := if truthyS pathId then { pr0 with pathId := pathId } else pr0
    let pr2 := match completedStations with
      | some cs => { pr1 with completedStations := some cs }
      | none => pr1
    let pr3 := match journalEntry with
      | some j =>
        if j ≠ "" then { pr2 with journal := pr2.journal ++ [⟨j, now⟩] }
        else pr2
      | none => pr2
    ({ s with progress := setKey userId pr3 s.progress }, ⟨200, true⟩)

/-- POST /api/crisis/log from routes/crisis.js: unconditionally appends
one entry with the posted fields and the current time, touching nothing
else, and reports success. -/
def crisisPost (s : AgoraState) (userId : String) (text : List Char)
    (detectedType severity : String) (now : Nat) :
    AgoraState × RouteResp :=
  ({ s with crisisLog :=
      s.crisisLog ++ [⟨userId, text, detectedType, severity, now⟩] },
   ⟨200, true⟩)

/-- Crisis-log entries referencing a user. An entry records one
triggering detection (the Incident of the spec); entries carry no
resolution or terminal state, so every entry remains active. -/
def incidentsFor (s : AgoraState) (u : String) : List CrisisEntry :=
  s.crisisLog.filter (fun e => e.userId = u)

/-! ### Helper lemmas -/

/-- The ineligible band of getTier is exactly age < 13. -/
lemma getTier_ineligible_iff (a : Int) : getTier a = Tier.ineligible ↔ a < 13 := by
  unfold getTier
  split_ifs with h1 h2 h3 <;> simp <;> omega

/-- The disciple band of getTier is exactly 13..15. -/
lemma getTier_disciple_iff (a : Int) :
    getTier a = Tier.disciple ↔ 13 ≤ a ∧ a ≤ 15 := by
  unfold getTier
  split_ifs with h1 h2 h3 <;> simp <;> omega

/-- The scribe band of getTier is exactly 16..17. -/
lemma getTier_scribe_iff (a : Int) :
    getTier a = Tier.scribe ↔ 16 ≤ a ∧ a ≤ 17 := by
  unfold getTier
  split_ifs with h1 h2 h3 <;> simp <;> omega

/-- The elder band of getTier is exactly 18 and above. -/
lemma getTier_elder_iff (a : Int) : getTier a = Tier.elder ↔ 18 ≤ a := by
  unfold getTier
  split_ifs with h1 h2 h3 <;> simp <;> omega

/-- Whole-years characterisation of calculateAge: the computed age is at
least `n` exactly when the shifted birthday date is on or before now. -/
lemma calculateAge_ge_iff (birth now : SDate) (n : Int) :
    n ≤ calculateAge now birth ↔
      dateLE ⟨birth.y + n, birth.m, birth.d⟩ now := by
  simp only [calculateAge, dateLE]
  split_ifs with h <;> omega

/-- In the year of the k-th birthday, calculateAge is k on or after the
birthday and k - 1 before it. -/
lemma calculateAge_same_year (birth now : SDate) (k : Int)
    (h : now.y = birth.y + k) :
    calculateAge now birth =
      if now.m < birth.m ∨ (now.m = birth.m ∧ now.d < birth.d)
      then k - 1 else k := by
  simp only [calculateAge]
  split_ifs with h1 h2 <;> omega

/-- Looking up the key just written by setKey returns the new value. -/
lemma lookup_setKey_self {β : Type} (k : String) (v : β)
    (l : List (String × β)) : (setKey k v l).lookup k = some v := by
  induction l with
  | nil => simp [setKey]
  | cons p tl ih =>
    by_cases h : p.1 = k
    · simp [setKey, h, List.lookup]
    · have hb : (k == p.1) = false := by
        simp only [beq_eq_false_iff_ne]
        exact fun hk => h hk.symm
      simp [setKey, h, List.lookup, hb, ih]

/-- Looking up a different key is unaffected by setKey. -/
lemma lookup_setKey_ne {β : Type} (k k2 : String) (v : β)
    (l : List (String × β)) (h : k2 ≠ k) :
    (setKey k v l).lookup k2 = l.lookup k2 := by
  induction l with
  | nil =>
    have hb : (k2 == k) = false := by
      simp only [beq_eq_false_iff_ne]; exact h
    simp [setKey, List.lookup, hb]
  | cons p tl ih =>
    by_cases hp : p.1 = k
    · subst hp
      have hb : (k2 == p.1) = false := by
        simp only [beq_eq_false_iff_ne]; exact h
      simp [setKey, List.lookup, hb]
    · simp only [setKey, if_neg hp, List.lookup]
      cases hk2 : k2 == p.1 <;> simp [ih]

/-- Writing an absent key with setKey appends the pair at the end. -/
lemma setKey_of_absent {β : Type} (k : String) (v : β)
    (l : List (String × β)) (h : l.lookup k = none) :
    setKey k v l = l ++ [(k, v)] := by
  induction l with
  | nil => simp [setKey]
  | cons p tl ih =>
    by_cases hp : p.1 = k
    · subst hp
      simp [List.lookup] at h
    · have hb : (k == p.1) = false := by
        simp only [beq_eq_false_iff_ne]
        exact fun hk => hp hk.symm
      simp only [List.lookup, hb] at h
      simp [setKey, hp, ih h]

/-! ### Claim theorems -/

/-- C7: tier resolution is deterministic, age is the whole-years count
by calendar month/day comparison (the n-th birthday has passed exactly
when computed age is at least n), the four tier bands of getTier
partition all ages with no gaps or overlaps (age < 13 ineligible, 13-15
disciple, 16-17 scribe, 18+ elder), and the exact 13th/16th/18th
birthday resolves to the higher tier on or after the birthday and to
the lower tier on any earlier day of that year. -/
theorem tier_resolution_correct :
    (∀ a : Int,
      (getTier a = Tier.ineligible ↔ a < 13) ∧
      (getTier a = Tier.disciple ↔ 13 ≤ a ∧ a ≤ 15) ∧
      (getTier a = Tier.scribe ↔ 16 ≤ a ∧ a ≤ 17) ∧
      (getTier a = Tier.elder ↔ 18 ≤ a)) ∧
    (∀ birth now : SDate, ∀ n : Int,
      n ≤ calculateAge now birth ↔
        dateLE ⟨birth.y + n, birth.m, birth.d⟩ now) ∧
    (∀ birth : SDate,
      getTier (calculateAge ⟨birth.y + 13, birth.m, birth.d⟩ birth)
        = Tier.disciple ∧
      getTier (calculateAge ⟨birth.y + 16, birth.m, birth.d⟩ birth)
        = Tier.scribe ∧
      getTier (calculateAge ⟨birth.y + 18, birth.m, birth.d⟩ birth)
        = Tier.elder) ∧
    (∀ birth now : SDate,
      (now.y = birth.y + 13 →
        ¬ dateLE ⟨birth.y + 13, birth.m, birth.d⟩ now →
        getTier (calculateAge now birth) = Tier.ineligible) ∧
      (now.y = birth.y + 16 →
        ¬ dateLE ⟨birth.y + 16, birth.m, birth.d⟩ now →
        getTier (calculateAge now birth) = Tier.disciple) ∧
      (now.y = birth.y + 18 →
        ¬ dateLE ⟨birth.y + 18, birth.m, birth.d⟩ now →
        getTier (calculateAge now birth) = Tier.scribe)) := by
  refine ⟨?_, ?_, ?_, ?_⟩
  · intro a
    exact ⟨getTier_ineligible_iff a, getTier_disciple_iff a,
      getTier_scribe_iff a, getTier_elder_iff a⟩
  · intro birth now n
    exact calculateAge_ge_iff birth now n
  · intro birth
    refine ⟨?_, ?_, ?_⟩
    · rw [calculateAge_same_year birth _ 13 rfl]
      simp [getTier_disciple_iff]
    · rw [calculateAge_same_year birth _ 16 rfl]
      simp [getTier_scribe_iff]
    · rw [calculateAge_same_year birth _ 18 rfl]
      simp [getTier_elder_iff]
  · intro birth now
    refine ⟨?_, ?_, ?_⟩ <;> intro hy hb
    · rw [calculateAge_same_year birth now 13 hy]
      simp only [dateLE] at hb
      rw [getTier_ineligible_iff]
      split_ifs with h <;> omega
    · rw [calculateAge_same_year birth now 16 hy]
      simp only [dateLE] at hb
      rw [getTier_disciple_iff]
      split_ifs with h <;> omega
    · rw [calculateAge_same_year birth now 18 hy]
      simp only [dateLE] at hb
      rw [getTier_scribe_iff]
      split_ifs with h <;> omega

/-- C7 witness: born 2000-05-15; on the exact 13th birthday the tier is
disciple; the day before it is still ineligible. -/
theorem tier_resolution_correct_witness :
    getTier (calculateAge ⟨2000 + 13, 5, 15⟩ ⟨2000, 5, 15⟩) = Tier.disciple ∧
    getTier (calculateAge ⟨2000 + 13, 5, 14⟩ ⟨2000, 5, 15⟩) = Tier.ineligible :=
  ⟨(tier_resolution_correct.2.2.1 ⟨2000, 5, 15⟩).1,
   (tier_resolution_correct.2.2.2 ⟨2000, 5, 15⟩ ⟨2000 + 13, 5, 14⟩).1
     (by decide) (by decide)⟩

/-- C9: an invalid or unparseable birth date makes the check-age click
handler report a validation failure and return before any localStorage
write; it is never mapped to the ineligible outcome or to any tier
outcome. -/
theorem invalid_birthdate_rejected :
    ∀ (store : Option String) (today : SDate),
      checkAgeClick store none today = (store, AgeCheckOutcome.invalidDate) ∧
      (∀ t : Tier,
        (checkAgeClick store none today).2 ≠ AgeCheckOutcome.showConsent t) ∧
      (checkAgeClick store none today).2 ≠ AgeCheckOutcome.tooYoung ∧
      (checkAgeClick store none today).2 ≠ AgeCheckOutcome.showAdult := by
  intro store today
  refine ⟨rfl, ?_, ?_, ?_⟩ <;> simp [checkAgeClick]

/-- C9 witness: concrete instance of the rejection with a non-empty
stored tier, showing the store is left untouched. -/
theorem invalid_birthdate_rejected_witness :
    checkAgeClick (some "elder") none ⟨2024, 6, 1⟩
      = (some "elder", AgeCheckOutcome.invalidDate) :=
  (invalid_birthdate_rejected (some "elder") ⟨2024, 6, 1⟩).1

/-- C10: detectCrisis is a function of its text argument; null or
non-string or empty input yields none, the categories are checked in
the priority order self-harm, abuse, identity (so a text matching
several keyword lists is classified by the highest-priority match),
self-harm and abuse are critical, identity is sensitive, and a text
matching no keyword list yields none. -/
theorem detectCrisis_classification :
    detectCrisis none = none ∧
    detectCrisis (some []) = none ∧
    ∀ t : List Char, t ≠ [] →
      (selfHarmKws.any (containsKw (lowerOf t)) = true →
        detectCrisis (some t) = some ⟨Severity.critical, "self-harm"⟩) ∧
      (selfHarmKws.any (containsKw (lowerOf t)) = false →
        abuseKws.any (containsKw (lowerOf t)) = true →
        detectCrisis (some t) = some ⟨Severity.critical, "abuse"⟩) ∧
      (selfHarmKws.any (containsKw (lowerOf t)) = false →
        abuseKws.any (containsKw (lowerOf t)) = false →
        identityKws.any (containsKw (lowerOf t)) = true →
        detectCrisis (some t) = some ⟨Severity.sensitive, "identity"⟩) ∧
      (selfHarmKws.any (containsKw (lowerOf t)) = false →
        abuseKws.any (containsKw (lowerOf t)) = false →
        identityKws.any (containsKw (lowerOf t)) = false →
        detectCrisis (some t) = none) := by
  refine ⟨rfl, rfl, ?_⟩
  intro t ht
  refine ⟨?_, ?_, ?_, ?_⟩
  · intro h1
    simp [detectCrisis, ht, h1]
  · intro h1 h2
    simp [detectCrisis, ht, h1, h2]
  · intro h1 h2 h3
    simp [detectCrisis, ht, h1, h2, h3]
  · intro h1 h2 h3
    simp [detectCrisis, ht, h1, h2, h3]

/-- C10 witness: a text matching the self-harm, abuse and identity
lists at once is classified self-harm, the highest-priority category. -/
theorem detectCrisis_classification_witness :
    selfHarmKws.any (containsKw (lowerOf "suicide abuse gay".data)) = true ∧
    abuseKws.any (containsKw (lowerOf "suicide abuse gay".data)) = true ∧
    identityKws.any (containsKw (lowerOf "suicide abuse gay".data)) = true ∧
    detectCrisis (some "suicide abuse gay".data)
      = some ⟨Severity.critical, "self-harm"⟩ :=
  ⟨by decide, by decide, by decide,
   (detectCrisis_classification.2.2 "suicide abuse gay".data
      (by decide)).1 (by decide)⟩

/-! ### Concrete fixtures for counterexamples and witnesses -/

/-- An adult user (ageCategory 18+) with no parental consent. -/
def adultNoConsent : GateUser :=
  ⟨"adult-1", some "18+", ⟨false, none, none, none⟩⟩

/-- A minor (13-15) whose parentalConsent flag is true but whose
renewalDue of 100 ms lies in the past at any later read time. -/
def minorExpiredConsent : GateUser :=
  ⟨"minor-1", some "13-15", ⟨true, some 0, some 100, none⟩⟩

/-- A minor (13-15) without consent, user id u2. -/
def minorU2 : GateUser := ⟨"u2", some "13-15", ⟨false, none, none, none⟩⟩

/-- A pending consent request for u2 created at time 0 with the 7-day
response window. -/
def pendingC1 : ConsentRecord :=
  ⟨"c1", "u2", "guardian@example.com", "email", "pending",
   0, sevenDaysMs, none⟩

/-- server.js state holding user u2 and the pending request c1. -/
def s0 : ServerState := ⟨[("u2", minorU2)], [("c1", pendingC1)], []⟩

/-- An already approved consent record for u2 under id c1. -/
def approvedC1 : ConsentRecord :=
  ⟨"c1", "u2", "guardian@example.com", "email", "approved",
   0, sevenDaysMs, some 50⟩

/-- server.js state in which c1 has already been decided (approved). -/
def sApproved : ServerState := ⟨[("u2", minorU2)], [("c1", approvedC1)], []⟩

/-- A minor with currently valid consent, user id u3. -/
def minorConsented : GateUser :=
  ⟨"u3", some "13-15", ⟨true, some 0, some yearMs, some "guardian@example.com"⟩⟩

/-- Agora server state holding only user u3, with empty progress,
crisis log and audit observer. -/
def a0 : AgoraState := ⟨[("u3", minorConsented)], [], [], []⟩

/-- A text matched by the self-harm keyword list. -/
def tCrit : List Char := "i want to kill myself".data

/-- A text matched by the abuse keyword list. -/
def tAbuse : List Char := "i was raped".data

/-- C3 counterexample: the claim that an Adult (18+) user is never
gated, and that a minor is gated while no unexpired approval exists, is
false at these inputs: AgeGate gates the 18+ user adultNoConsent
because parentalConsent is false, and it reports the minor
minorExpiredConsent ungated even though the renewalDue time 100 has
passed — AgeGate takes no clock input and never checks expiry. -/
theorem adult_gated_cex :
    ageGateGated 13 (some adultNoConsent) = true ∧
    ageGateGated 13 (some minorExpiredConsent) = false := by
  decide

/-- C3 amended: AgeGate reports a user ungated exactly when the user is
present, the mapped age of its ageCategory reaches minimumAge, and the
parentalConsent flag is true; the decision is tier-insensitive (adults
included) and independent of every stored consent date, so no expiry is
evaluated at read time. -/
theorem ageGate_characterization :
    ∀ (minimumAge : Nat) (u : GateUser),
      (ageGateGated minimumAge (some u) = false ↔
        minimumAge ≤ ageMapVal u.ageCategory ∧
          u.consentStatus.parentalConsent = true) ∧
      (∀ cd rd ge,
        ageGateGated minimumAge
          (some ⟨u.userId, u.ageCategory,
            ⟨u.consentStatus.parentalConsent, cd, rd, ge⟩⟩) =
          ageGateGated minimumAge (some u)) ∧
      ageGateGated minimumAge none = true := by
  intro mA u
  refine ⟨?_, ?_, rfl⟩
  · simp [ageGateGated, ageGateAllowed]
  · intro cd rd ge
    simp [ageGateGated, ageGateAllowed]

/-- C3 amendment witness: the characterisation applied to the adult
fixture shows dropping its consent dates does not change gating. -/
theorem ageGate_characterization_witness :
    ageGateGated 13
      (some ⟨adultNoConsent.userId, adultNoConsent.ageCategory,
        ⟨adultNoConsent.consentStatus.parentalConsent,
         some 7, some 9, some "g@example.com"⟩⟩) =
      ageGateGated 13 (some adultNoConsent) :=
  (ageGate_characterization 13 adultNoConsent).2.1
    (some 7) (some 9) (some "g@example.com")

/-- C4 counterexample: approving the pending request c1 at time 0
succeeds, but the record keeps its 7-day expiresAt instead of
now + 365 days, and the approved minor is reported ungated by AgeGate
— which takes no clock input and reads only the parentalConsent flag —
so the user is still ungated at day 366, contrary to the claimed
re-gating. -/
theorem approval_expiry_cex :
    (consentVerify s0 "c1" (some true) 0).2.ok = true ∧
    ((consentVerify s0 "c1" (some true) 0).1.consents.lookup "c1").map
      ConsentRecord.expiresAt = some sevenDaysMs ∧
    sevenDaysMs ≠ 0 + 365 * dayMs ∧
    ((consentVerify s0 "c1" (some true) 0).1.users.lookup "u2").map
      (fun u => ageGateGated 13 (some u)) = some false := by
  decide

/-- C4 amended: for every existing consent record, approval overwrites
its status to approved with verifiedAt = now and leaves its expiresAt
(the 7-day request expiry) unchanged; in the same handler the
referenced user record gets parentalConsent true, consentDate now and
renewalDue now + 365 days. The gate never reads renewalDue, so the user
does not become gated again on day 366. -/
theorem consent_approve_updates (s : ServerState) (cid : String)
    (rec0 : ConsentRecord) (u : GateUser) (now : Nat)
    (hcid : cid ≠ "")
    (hrec : s.consents.lookup cid = some rec0)
    (hu : s.users.lookup rec0.userId = some u) :
    (consentVerify s cid (some true) now).2.ok = true ∧
    (consentVerify s cid (some true) now).1.consents.lookup cid
      = some { rec0 with status := "approved", verifiedAt := some now } ∧
    ConsentRecord.expiresAt
      { rec0 with status := "approved", verifiedAt := some now }
      = rec0.expiresAt ∧
    (consentVerify s cid (some true) now).1.users.lookup rec0.userId
      = some { u with consentStatus :=
          { u.consentStatus with
            parentalConsent := true,
            consentDate := some now,
            renewalDue := some (now + yearMs) } } := by
  have hcond : ¬(cid = "" ∨ (some true : Option Bool) = none) := by
    simp [hcid]
  simp only [consentVerify, if_neg hcond, hrec, hu, Option.getD_some,
    if_pos]
  simp [lookup_setKey_self]

/-- C4 amendment witness: the amended statement at the fixture state. -/
theorem consent_approve_updates_witness :
    (consentVerify s0 "c1" (some true) 0).2.ok = true ∧
    (consentVerify s0 "c1" (some true) 0).1.consents.lookup "c1"
      = some { pendingC1 with status := "approved", verifiedAt := some 0 } :=
  ⟨(consent_approve_updates s0 "c1" pendingC1 minorU2 0
      (by decide) (by decide) (by decide)).1,
   (consent_approve_updates s0 "c1" pendingC1 minorU2 0
      (by decide) (by decide) (by decide)).2.1⟩

/-- C5 counterexample: with the active (7-day window) pending request
c1 for u2 in place, a second request for u2 at time 1000 does not fail
with DuplicateActiveRequest: it succeeds and a second pending record
for the same user is stored. -/
theorem duplicate_request_cex :
    pendingC1.status = "pending" ∧ pendingC1.expiresAt = sevenDaysMs ∧
    (consentRequest s0 "c2" "u2" "guardian2@example.com" "email" 1000).2.ok
      = true ∧
    ((consentRequest s0 "c2" "u2" "guardian2@example.com" "email" 1000).1.consents.filter
      (fun p => p.2.userId == "u2" && p.2.status == "pending")).length = 2 := by
  decide

/-- C5 amended: requestConsent never reports DuplicateActiveRequest;
whenever userId and guardianEmail are present it unconditionally stores
one new pending record with a 7-day expiresAt, regardless of any
existing pending record for the user (which is neither checked nor
superseded), and leaves the user store untouched. -/
theorem consent_request_always_creates (s : ServerState)
    (freshId userId guardianEmail method : String) (now : Nat)
    (hu : userId ≠ "") (hg : guardianEmail ≠ "")
    (hf : s.consents.lookup freshId = none) :
    (consentRequest s freshId userId guardianEmail method now).2
      = ⟨200, true, some freshId⟩ ∧
    (consentRequest s freshId userId guardianEmail method now).1.consents
      = s.consents ++
        [(freshId, ⟨freshId, userId, guardianEmail, method, "pending",
          now, now + sevenDaysMs, none⟩)] ∧
    (consentRequest s freshId userId guardianEmail method now).1.users
      = s.users := by
  have hcond : ¬(userId = "" ∨ guardianEmail = "") := by simp [hu, hg]
  simp only [consentRequest, if_neg hcond]
  simp [setKey_of_absent _ _ _ hf]

/-- C5 amendment witness: the amended statement at the fixture state,
where an active pending record for the same user already exists. -/
theorem consent_request_always_creates_witness :
    (consentRequest s0 "c3" "u2" "guardian3@example.com" "email" 2000).2
      = ⟨200, true, some "c3"⟩ :=
  (consent_request_always_creates s0 "c3" "u2" "guardian3@example.com"
    "email" 2000 (by decide) (by decide) (by decide)).1

/-- C6 counterexample: the already approved record c1 is re-decided to
denied with a success response instead of failing with AlreadyDecided,
and the pending record c1 of s0, decided at 8 days — past its 7-day
window — is approved with a success response instead of an Expired
conflict. -/
theorem decide_conflict_cex :
    approvedC1.status = "approved" ∧
    (consentVerify sApproved "c1" (some false) 100).2.ok = true ∧
    ((consentVerify sApproved "c1" (some false) 100).1.consents.lookup "c1").map
      ConsentRecord.status = some "denied" ∧
    pendingC1.createdAt + sevenDaysMs < 8 * dayMs ∧
    (consentVerify s0 "c1" (some true) (8 * dayMs)).2.ok = true ∧
    ((consentVerify s0 "c1" (some true) (8 * dayMs)).1.consents.lookup "c1").map
      ConsentRecord.status = some "approved" := by
  decide

/-- C6 amended: decide fails with NotFound (404, no state change) for
an unknown consent id; for every existing record — whatever its status
and however old — decide succeeds and overwrites the status to approved
or denied with verifiedAt = now: no AlreadyDecided and no Expired
conflict exists. -/
theorem decide_overwrites (s : ServerState) (cid : String)
    (rec0 : ConsentRecord) (ap : Bool) (now : Nat) (hcid : cid ≠ "") :
    (s.consents.lookup cid = none →
      consentVerify s cid (some ap) now = (s, ⟨404, false, none⟩)) ∧
    (s.consents.lookup cid = some rec0 →
      (consentVerify s cid (some ap) now).2.ok = true ∧
      (consentVerify s cid (some ap) now).1.consents.lookup cid
        = some { rec0 with
            status := if ap then "approved" else "denied",
            verifiedAt := some now }) := by
  have hcond : ¬(cid = "" ∨ (some ap : Option Bool) = none) := by
    simp [hcid]
  constructor
  · intro h
    simp only [consentVerify, if_neg hcond, h]
  · intro h
    simp only [consentVerify, if_neg hcond, h, Option.getD_some]
    cases ap
    · simp [lookup_setKey_self]
    · simp only [if_pos]
      constructor
      · trivial
      · split <;> simp [lookup_setKey_self]

/-- C6 amendment witness: 404 for an unknown id on the fixture state,
and the overwrite of the already decided record c1. -/
theorem decide_overwrites_witness :
    consentVerify sApproved "missing" (some true) 100
      = (sApproved, ⟨404, false, none⟩) ∧
    ((consentVerify sApproved "c1" (some true) 100).1.consents.lookup "c1"
      = some { approvedC1 with status := "approved", verifiedAt := some 100 }) :=
  ⟨(decide_overwrites sApproved "missing" approvedC1 true 100
      (by decide)).1 (by decide),
   ((decide_overwrites sApproved "c1" approvedC1 true 100
      (by decide)).2 (by decide)).2⟩

/-- C8 counterexample: a successful consent decide, a successful
consent revoke and a crisis-log write each complete with the audit
observer still empty — no operation writes the one AuditEntry the claim
requires. -/
theorem missing_audit_cex :
    ((consentVerify s0 "c1" (some true) 0).2.ok = true ∧
      (consentVerify s0 "c1" (some true) 0).1.audit = []) ∧
    ((consentRevoke a0 "u3").2.success = true ∧
      (consentRevoke a0 "u3").1.audit = []) ∧
    ((crisisPost a0 "u3" tCrit "self-harm" "critical" 5).2.success = true ∧
      (crisisPost a0 "u3" tCrit "self-harm" "critical" 5).1.audit = []) := by
  decide

/-- C8 amended: no operation of either server — consent request,
consent decide, consent revoke, crisis log, progress update — ever
writes an audit record: the servers persist only users, consents,
progress and crisis-log data, and the audit observer is unchanged by
every handler. -/
theorem no_audit_emitted :
    ∀ (s : ServerState) (freshId userId guardianEmail method cid : String)
      (ap : Option Bool) (now : Nat) (a : AgoraState) (uid : String)
      (text : List Char) (dt sev : String) (pid : Option String)
      (cs : Option (List String)) (je : Option String),
      (consentRequest s freshId userId guardianEmail method now).1.audit
        = s.audit ∧
      (consentVerify s cid ap now).1.audit = s.audit ∧
      (consentRevoke a uid).1.audit = a.audit ∧
      (crisisPost a uid text dt sev now).1.audit = a.audit ∧
      (progressUpdate a uid pid cs je now).1.audit = a.audit := by
  intro s freshId userId guardianEmail method cid ap now a uid text dt sev
    pid cs je
  refine ⟨?_, ?_, ?_, rfl, ?_⟩
  · simp only [consentRequest]
    split <;> rfl
  · simp only [consentVerify]
    split
    · rfl
    · split
      · rfl
      · split
        · split <;> rfl
        · rfl
  · simp only [consentRevoke]
    split
    · rfl
    · split <;> rfl
  · simp only [progressUpdate]
    split <;> rfl

/-- C8 amendment witness: the audit-preservation statement at the
fixture states. -/
theorem no_audit_emitted_witness :
    (consentRequest s0 "c9" "u2" "guardian@example.com" "email" 7).1.audit
      = s0.audit :=
  (no_audit_emitted s0 "c9" "u2" "guardian@example.com" "email" "c1"
    (some true) 7 a0 "u3" tCrit "self-harm" "critical" none none none).1

/-- C1 counterexample: the text tCrit is classified critical/self-harm,
yet logging it via POST /api/crisis/log leaves the user and progress
stores untouched (there is no safety state, no lock, no responder
channel and no dispatcher in any store), appends one log entry, and the
user can still create a new post immediately afterwards — posting is
not suspended, contrary to the claimed atomic lock effects. -/
theorem red_lock_missing_cex :
    detectCrisis (some tCrit) = some ⟨Severity.critical, "self-harm"⟩ ∧
    (crisisPost a0 "u3" tCrit "self-harm" "critical" 100).2.success = true ∧
    (crisisPost a0 "u3" tCrit "self-harm" "critical" 100).1.users
      = a0.users ∧
    (crisisPost a0 "u3" tCrit "self-harm" "critical" 100).1.progress
      = a0.progress ∧
    (crisisPost a0 "u3" tCrit "self-harm" "critical" 100).1.crisisLog.length
      = 1 ∧
    (progressUpdate (crisisPost a0 "u3" tCrit "self-harm" "critical" 100).1
      "u3" none none (some "a new public post") 200).2.success = true := by
  decide

/-- C1 amended: when the classifier returns critical for a user text,
the crisis route merely appends one log entry carrying the posted
fields — every other component of the server state is unchanged, so no
content is hidden, no posting or messaging suspension exists, no
responder channel is opened and no dispatcher alert is enqueued; in
particular the user can still create a new post right afterwards. -/
theorem critical_trigger_only_logs (a : AgoraState) (uid : String)
    (t : List Char) (c : Classification) (now now2 : Nat) (j : String)
    (hc : detectCrisis (some t) = some c)
    (hcrit : c.level = Severity.critical)
    (hu : uid ≠ "") :
    crisisPost a uid t c.type "critical" now
      = ({ a with crisisLog :=
            a.crisisLog ++ [⟨uid, t, c.type, "critical", now⟩] },
         ⟨200, true⟩) ∧
    (progressUpdate (crisisPost a uid t c.type "critical" now).1
      uid none none (some j) now2).2.success = true := by
  refine ⟨rfl, ?_⟩
  simp only [progressUpdate, if_neg hu]

/-- C1 amendment witness: the amended statement at the fixture state. -/
theorem critical_trigger_only_logs_witness :
    (progressUpdate (crisisPost a0 "u3" tCrit "self-harm" "critical" 100).1
      "u3" none none (some "hello") 200).2.success = true :=
  (critical_trigger_only_logs a0 "u3" tCrit
    ⟨Severity.critical, "self-harm"⟩ 100 200 "hello"
    (by decide) rfl (by decide)).2

/-- C2 counterexample: two critical triggers for user u3 (self-harm
then abuse) produce two separate crisis-log records for u3; the
entries carry no resolution or terminal state and no lock exists, so
two active incident records for the same user coexist, uncoalesced —
not one state holding two incident references. -/
theorem no_coalescing_cex :
    detectCrisis (some tCrit) = some ⟨Severity.critical, "self-harm"⟩ ∧
    detectCrisis (some tAbuse) = some ⟨Severity.critical, "abuse"⟩ ∧
    (incidentsFor
      ((crisisPost ((crisisPost a0 "u3" tCrit "self-harm" "critical" 100).1)
        "u3" tAbuse "abuse" "critical" 101).1) "u3").length = 2 := by
  decide

/-- Sequence of crisis-log posts for one user; each list element
carries text, detectedType, severity and time, in arrival order. -/
def crisisPostAll (a : AgoraState) (uid : String)
    (l : List (List Char × String × String × Nat)) : AgoraState :=
  l.foldl (fun st e => (crisisPost st uid e.1 e.2.1 e.2.2.1 e.2.2.2).1) a

/-- C2 amended: the server keeps no per-user safety state and performs
no coalescing: N triggers for the same user append N separate
crisis-log entries in order, the user and progress stores are
unchanged, and the log grows by exactly N. -/
theorem triggers_accumulate :
    ∀ (l : List (List Char × String × String × Nat))
      (a : AgoraState) (uid : String),
      (crisisPostAll a uid l).crisisLog
        = a.crisisLog ++ l.map (fun e =>
            (⟨uid, e.1, e.2.1, e.2.2.1, e.2.2.2⟩ : CrisisEntry)) ∧
      (crisisPostAll a uid l).crisisLog.length
        = a.crisisLog.length + l.length ∧
      (crisisPostAll a uid l).users = a.users ∧
      (crisisPostAll a uid l).progress = a.progress := by
  intro l
  induction l with
  | nil =>
    intro a uid
    simp [crisisPostAll]
  | cons e tl ih =>
    intro a uid
    obtain ⟨h1, h2, h3, h4⟩ :=
      ih (crisisPost a uid e.1 e.2.1 e.2.2.1 e.2.2.2).1 uid
    simp only [crisisPostAll, List.foldl_cons] at h1 h2 h3 h4 ⊢
    refine ⟨?_, ?_, ?_, ?_⟩
    · rw [h1]
      simp [crisisPost]
    · rw [h2]
      simp [crisisPost]
      omega
    · exact h3
    · exact h4

end Agora
